import Mathlib

/-!
Verification of the request admission and scheduling subsystem of the
Target-Monitor repository.  The Python sources under `src/core/` and
`src/api/` are shallowly embedded below: machine floats and wall-clock
timestamps are modelled as rationals, Python dicts as association lists,
Python sets as duplicate-free lists, and the two sources of randomness
(`random.choice`, `random.sample`) as explicit oracle parameters
constrained by the documented contract of the library function.
-/

namespace RateLimiterPy

/-- `RateLimitConfig` from `src/core/rate_limiter.py` lines 12-19. -/
structure RateLimitConfig where
  max_requests_per_minute : ℕ := 25
  max_requests_per_hour : ℕ := 1200
  max_requests_per_day : ℕ := 25000
  burst_allowance : ℕ := 5
  cooldown_period : ℕ := 60
deriving DecidableEq

/-- `TokenBucket` from `src/core/rate_limiter.py` lines 22-30: a capacity,
a current token count, a refill rate in tokens per second and the time of
the last refill.  The `threading.Lock` field is concurrency plumbing and
has no sequential semantics. -/
structure TokenBucket where
  capacity : ℚ
  tokens : ℚ
  refill_rate : ℚ
  last_refill : ℚ
deriving DecidableEq

/-- `TokenBucket.__init__`: starts full, stamped with the current time. -/
def TokenBucket.init (capacity : ℚ) (refill_rate : ℚ) (now : ℚ) : TokenBucket :=
  { capacity := capacity, tokens := capacity, refill_rate := refill_rate, last_refill := now }

/-- `TokenBucket.consume` from `src/core/rate_limiter.py` lines 32-44:
refill by elapsed time, clamped at capacity, then subtract `n` tokens if
at least `n` are present.  Returns the success flag and the new bucket. -/
def TokenBucket.consume (b : TokenBucket) (now : ℚ) (n : ℚ) : Bool × TokenBucket :=
  let refilled := min b.capacity (b.tokens + (now - b.last_refill) * b.refill_rate)
  if n ≤ refilled then
    (true, { b with tokens := refilled - n, last_refill := now })
  else
    (false, { b with tokens := refilled, last_refill := now })

/-- `TokenBucket.wait_time` from `src/core/rate_limiter.py` lines 46-52. -/
def TokenBucket.wait_time (b : TokenBucket) (n : ℚ) : ℚ :=
  if n ≤ b.tokens then 0 else (n - b.tokens) / b.refill_rate

/-- Well-formedness of a bucket: the token count is between 0 and the
capacity. -/
def TokenBucket.WF (b : TokenBucket) : Prop :=
  0 ≤ b.tokens ∧ b.tokens ≤ b.capacity

instance (b : TokenBucket) : Decidable b.WF := by
  unfold TokenBucket.WF; infer_instance

/-- Run a sequence of `consume` calls; each list entry carries the call
time and the requested token count. -/
def TokenBucket.consumeSeq (b : TokenBucket) : List (ℚ × ℚ) → TokenBucket
  | [] => b
  | c :: cs => ((b.consume c.1 c.2).2).consumeSeq cs

/-- The call times are non-decreasing starting from `t` (wall-clock time
never runs backwards) and every requested amount is non-negative. -/
def ValidCalls (t : ℚ) : List (ℚ × ℚ) → Prop
  | [] => True
  | c :: cs => t ≤ c.1 ∧ 0 ≤ c.2 ∧ ValidCalls c.1 cs

end RateLimiterPy

namespace RateLimiterPy

/-- The three circuit-breaker states, shared by both breaker
implementations in the repository (`CLOSED`, `OPEN`, `HALF_OPEN`). -/
inductive CircuitState where
  | CLOSED
  | OPEN
  | HALF_OPEN
deriving DecidableEq

/-- Python truthiness of an optional float timestamp: `None` and `0.0`
are falsy, every other value is truthy. -/
def truthyTime : Option ℚ → Bool
  | none => false
  | some t => t != 0

/-- `CircuitBreaker` from `src/core/rate_limiter.py` lines 178-187 (the
breaker defined inside the rate-limiter module, used by
`EnhancedRateLimiter`). -/
structure CircuitBreaker where
  failure_threshold : ℕ
  recovery_timeout : ℚ
  failure_count : ℕ
  last_failure_time : Option ℚ
  state : CircuitState
deriving DecidableEq

/-- `CircuitBreaker.is_open` from `src/core/rate_limiter.py` lines
210-226: lazily moves `OPEN` to `HALF_OPEN` once the recovery timeout has
elapsed since the recorded failure.  Returns the flag and the (possibly
updated) breaker. -/
def CircuitBreaker.is_open (cb : CircuitBreaker) (now : ℚ) : Bool × CircuitBreaker :=
  match cb.state with
  | .CLOSED => (false, cb)
  | .OPEN =>
    if truthyTime cb.last_failure_time &&
        (match cb.last_failure_time with
         | some t => decide (cb.recovery_timeout ≤ now - t)
         | none => false) then
      (false, { cb with state := .HALF_OPEN })
    else
      (true, cb)
  | .HALF_OPEN => (false, cb)

/-- `CircuitBreaker.wait_time` from `src/core/rate_limiter.py` lines
228-234. -/
def CircuitBreaker.wait_time (cb : CircuitBreaker) (now : ℚ) : ℚ :=
  if truthyTime cb.last_failure_time then
    match cb.last_failure_time with
    | some t => max 0 (cb.recovery_timeout - (now - t))
    | none => 0
  else 0

/-- `EnhancedRateLimiter` from `src/core/rate_limiter.py` lines 89-114:
the three window buckets and the circuit breaker.  The request tracker,
config and logging fields do not influence the admission decision and are
modelled separately. -/
structure EnhancedRateLimiter where
  minute_bucket : TokenBucket
  hour_bucket : TokenBucket
  day_bucket : TokenBucket
  circuit_breaker : CircuitBreaker
deriving DecidableEq

/-- `EnhancedRateLimiter.__init__` lines 92-114: bucket capacities and
refill rates derived from the config. -/
def EnhancedRateLimiter.init (config : RateLimitConfig) (now : ℚ) : EnhancedRateLimiter :=
  { minute_bucket :=
      TokenBucket.init (config.max_requests_per_minute + config.burst_allowance)
        (config.max_requests_per_minute / 60) now
    hour_bucket :=
      TokenBucket.init config.max_requests_per_hour (config.max_requests_per_hour / 3600) now
    day_bucket :=
      TokenBucket.init config.max_requests_per_day (config.max_requests_per_day / 86400) now
    circuit_breaker :=
      { failure_threshold := 5, recovery_timeout := 300, failure_count := 0,
        last_failure_time := none, state := .CLOSED } }

/-- One iteration of the refund loop in `can_make_request` lines 138-142:
`if bucket.tokens < bucket.capacity: bucket.tokens += 1`.  Note that the
source applies this to every bucket, not only to the buckets that
consumed a token in this attempt. -/
def refundOne (b : TokenBucket) : TokenBucket :=
  if b.tokens < b.capacity then { b with tokens := b.tokens + 1 } else b

/-- `EnhancedRateLimiter.can_make_request` from `src/core/rate_limiter.py`
lines 116-144: early-return when the breaker is open, otherwise attempt
to consume one token from each of the minute, hour and day buckets (all
three are attempted regardless of earlier failures), accumulate the
largest wait time over failing buckets, and on overall denial run the
refund loop over all three buckets. -/
def EnhancedRateLimiter.can_make_request (rl : EnhancedRateLimiter) (now : ℚ) :
    (Bool × ℚ) × EnhancedRateLimiter :=
  let r := rl.circuit_breaker.is_open now
  if r.1 then
    ((false, r.2.wait_time now), { rl with circuit_breaker := r.2 })
  else
    let m := rl.minute_bucket.consume now 1
    let h := rl.hour_bucket.consume now 1
    let d := rl.day_bucket.consume now 1
    let max_wait0 : ℚ := 0
    let max_wait1 := if m.1 then max_wait0 else max max_wait0 (m.2.wait_time 1)
    let max_wait2 := if h.1 then max_wait1 else max max_wait1 (h.2.wait_time 1)
    let max_wait3 := if d.1 then max_wait2 else max max_wait2 (d.2.wait_time 1)
    let can_proceed := m.1 && h.1 && d.1
    if can_proceed then
      ((true, max_wait3),
       { rl with minute_bucket := m.2, hour_bucket := h.2, day_bucket := d.2,
                 circuit_breaker := r.2 })
    else
      ((false, max_wait3),
       { rl with minute_bucket := refundOne m.2, hour_bucket := refundOne h.2,
                 day_bucket := refundOne d.2, circuit_breaker := r.2 })

/-- Sum of the available tokens over the three windows. -/
def EnhancedRateLimiter.aggregateTokens (rl : EnhancedRateLimiter) : ℚ :=
  rl.minute_bucket.tokens + rl.hour_bucket.tokens + rl.day_bucket.tokens

/-- A concrete limiter state reachable after the minute window has been
exhausted: minute bucket empty, hour and day buckets partly consumed,
breaker closed, no time elapsed since the last refill of any bucket. -/
def depletedLimiter : EnhancedRateLimiter :=
  { minute_bucket := { capacity := 30, tokens := 0, refill_rate := 25/60, last_refill := 0 }
    hour_bucket := { capacity := 1200, tokens := 5, refill_rate := 1/3, last_refill := 0 }
    day_bucket := { capacity := 25000, tokens := 7, refill_rate := 25000/86400, last_refill := 0 }
    circuit_breaker :=
      { failure_threshold := 5, recovery_timeout := 300, failure_count := 0,
        last_failure_time := none, state := .CLOSED } }

end RateLimiterPy

namespace CircuitBreakerPy

/-- `CircuitBreaker` from `src/core/circuit_breaker.py` lines 20-33: the
standalone breaker with a success threshold for leaving `HALF_OPEN`.  The
`CircuitState` enum of that module has the same three values as
`RateLimiterPy.CircuitState` and is reused here. -/
structure CircuitBreaker where
  failure_threshold : ℕ
  recovery_timeout : ℚ
  success_threshold : ℕ
  failure_count : ℕ
  success_count : ℕ
  last_failure_time : Option ℚ
  state : RateLimiterPy.CircuitState
deriving DecidableEq

/-- `CircuitBreaker.__init__` lines 23-33: all counters zero, no recorded
failure, state `CLOSED`. -/
def CircuitBreaker.init (ft : ℕ) (rt : ℚ) (st : ℕ) : CircuitBreaker :=
  { failure_threshold := ft, recovery_timeout := rt, success_threshold := st,
    failure_count := 0, success_count := 0, last_failure_time := none,
    state := .CLOSED }

/-- `CircuitBreaker.can_execute` from `src/core/circuit_breaker.py` lines
48-63: `CLOSED` and `HALF_OPEN` admit; `OPEN` admits — moving to
`HALF_OPEN` with the success counter cleared — once the recovery timeout
has elapsed since the recorded failure (the `self.last_failure_time and
…` guard is Python truthiness on the optional timestamp). -/
def CircuitBreaker.can_execute (cb : CircuitBreaker) (now : ℚ) : Bool × CircuitBreaker :=
  match cb.state with
  | .CLOSED => (true, cb)
  | .OPEN =>
    if RateLimiterPy.truthyTime cb.last_failure_time &&
        (match cb.last_failure_time with
         | some t => decide (cb.recovery_timeout ≤ now - t)
         | none => false) then
      (true, { cb with state := .HALF_OPEN, success_count := 0 })
    else
      (false, cb)
  | .HALF_OPEN => (true, cb)

/-- `CircuitBreaker.record_success` from `src/core/circuit_breaker.py`
lines 65-76: in `HALF_OPEN`, count the success and close (resetting the
failure count) once the success threshold is reached; in `CLOSED`, decay
the failure count by one toward zero (ℕ subtraction is the source's
`max(0, …)`); in `OPEN`, do nothing. -/
def CircuitBreaker.record_success (cb : CircuitBreaker) : CircuitBreaker :=
  match cb.state with
  | .HALF_OPEN =>
    if cb.success_threshold ≤ cb.success_count + 1 then
      { cb with success_count := cb.success_count + 1, state := .CLOSED, failure_count := 0 }
    else
      { cb with success_count := cb.success_count + 1 }
  | .CLOSED => { cb with failure_count := cb.failure_count - 1 }
  | .OPEN => cb

/-- `CircuitBreaker.record_failure` from `src/core/circuit_breaker.py`
lines 78-87: count the failure and stamp its time; from `CLOSED` or
`HALF_OPEN`, trip to `OPEN` once the failure threshold is reached. -/
def CircuitBreaker.record_failure (cb : CircuitBreaker) (now : ℚ) : CircuitBreaker :=
  let cb2 := { cb with failure_count := cb.failure_count + 1, last_failure_time := some now }
  if (cb2.state = .CLOSED ∨ cb2.state = .HALF_OPEN) ∧
      cb2.failure_threshold ≤ cb2.failure_count then
    { cb2 with state := .OPEN }
  else
    cb2

/-- `CircuitBreaker.reset` lines 93-100. -/
def CircuitBreaker.reset (cb : CircuitBreaker) : CircuitBreaker :=
  { cb with state := .CLOSED, failure_count := 0, success_count := 0,
            last_failure_time := none }

/-- The four operations a caller can perform on the breaker, each tagged
with the wall-clock time where the source reads `time.time()`. -/
inductive CBEvent where
  | fail (t : ℚ)
  | succeed
  | query (t : ℚ)
  | reset
deriving DecidableEq

/-- Apply one event to the breaker (for `query`, the state returned by
`can_execute`). -/
def CircuitBreaker.step (cb : CircuitBreaker) : CBEvent → CircuitBreaker
  | .fail t => cb.record_failure t
  | .succeed => cb.record_success
  | .query t => (cb.can_execute t).2
  | .reset => cb.reset

/-- Run a list of events from a given breaker state. -/
def CircuitBreaker.run (cb : CircuitBreaker) : List CBEvent → CircuitBreaker
  | [] => cb
  | e :: es => (cb.step e).run es

/-- Hidden invariant of the breaker: away from `CLOSED` the failure count
has reached the threshold (entering `HALF_OPEN` clears the success
counter but not the failure counter). -/
def CircuitBreaker.Inv (cb : CircuitBreaker) : Prop :=
  cb.state ≠ .CLOSED → cb.failure_threshold ≤ cb.failure_count

end CircuitBreakerPy

namespace ProxyManagerPy

/-- Per-proxy health state from `src/api/proxy_manager.py` lines 53-60
(the dict initialised in `load_proxies`). -/
structure ProxyHealth where
  consecutive_failures : ℕ
  total_requests : ℕ
  successful_requests : ℕ
  last_success : Option ℚ
  last_failure : Option ℚ
  banned_until : Option ℚ
deriving DecidableEq

/-- The initial health entry of a freshly loaded proxy (lines 53-60). -/
def ProxyHealth.init : ProxyHealth :=
  { consecutive_failures := 0, total_requests := 0, successful_requests := 0,
    last_success := none, last_failure := none, banned_until := none }

/-- Per-proxy performance state from `src/api/proxy_manager.py` lines
62-65. -/
structure ProxyPerformance where
  response_times : List ℚ
  recent_results : List Bool
deriving DecidableEq

/-- The health-tracking half of `ProxyManager.record_proxy_result`
(`src/api/proxy_manager.py` lines 214-234): bump the totals; on success
record the time and clear the consecutive-failure count; on failure
record the time, bump the consecutive-failure count, and set a temporary
ban of `ban_duration` once the count reaches `thresh`
(`consecutive_failures_threshold`, default 3). -/
def updateHealth (h : ProxyHealth) (success : Bool) (now : ℚ)
    (thresh : ℕ) (ban_duration : ℚ) : ProxyHealth :=
  let h1 := { h with total_requests := h.total_requests + 1 }
  if success then
    { h1 with successful_requests := h1.successful_requests + 1,
              last_success := some now, consecutive_failures := 0 }
  else
    let h2 := { h1 with last_failure := some now,
                        consecutive_failures := h1.consecutive_failures + 1 }
    if thresh ≤ h2.consecutive_failures then
      { h2 with banned_until := some (now + ban_duration) }
    else h2

/-- The performance-tracking half of `ProxyManager.record_proxy_result`
(`src/api/proxy_manager.py` lines 236-256): append the latency (kept to
the last 50) and the outcome (kept to the last 100, the
`performance_window`). -/
def updatePerformance (p : ProxyPerformance) (success : Bool)
    (response_time : Option ℚ) : ProxyPerformance :=
  let rts := match response_time with
    | some rt =>
      let r := p.response_times ++ [rt]
      if 50 < r.length then r.drop (r.length - 50) else r
    | none => p.response_times
  let rr := p.recent_results ++ [success]
  let rr2 := if 100 < rr.length then rr.drop (rr.length - 100) else rr
  { response_times := rts, recent_results := rr2 }

/-- `ProxyManager.record_proxy_result` (lines 199-256) acting on one
proxy's health and performance entries. -/
def recordProxyResult (h : ProxyHealth) (p : ProxyPerformance) (success : Bool)
    (response_time : Option ℚ) (now : ℚ) (thresh : ℕ) (ban_duration : ℚ) :
    ProxyHealth × ProxyPerformance :=
  (updateHealth h success now thresh ban_duration,
   updatePerformance p success response_time)

/-- `ProxyManager._is_proxy_temporarily_banned` from
`src/api/proxy_manager.py` lines 110-123.  `if banned_until and now <
banned_until` is Python truthiness: `None` and `0.0` are falsy.  An
expired ban is lazily cleared, resetting the consecutive-failure count. -/
def isProxyTemporarilyBanned (h : ProxyHealth) (now : ℚ) : Bool × ProxyHealth :=
  match h.banned_until with
  | none => (false, h)
  | some b =>
    if b = 0 then (false, h)
    else if now < b then (true, h)
    else (false, { h with banned_until := none, consecutive_failures := 0 })

/-- `ProxyManager._get_healthy_proxies` from `src/api/proxy_manager.py`
lines 125-148, over an association list of proxies in load order paired
with their health entries: a proxy in the failed or banned set is
skipped; otherwise the lazy temporary-ban check runs (possibly clearing
an expired ban) and the proxy is kept when it is not banned.  Returns the
healthy proxy urls and the updated health entries. -/
def getHealthyProxies (now : ℚ) (failed banned : List String) :
    List (String × ProxyHealth) → List String × List (String × ProxyHealth)
  | [] => ([], [])
  | (url, h) :: rest =>
    if url ∈ failed then
      let r := getHealthyProxies now failed banned rest
      (r.1, (url, h) :: r.2)
    else if url ∈ banned then
      let r := getHealthyProxies now failed banned rest
      (r.1, (url, h) :: r.2)
    else
      let tb := isProxyTemporarilyBanned h now
      let r := getHealthyProxies now failed banned rest
      (if tb.1 then r.1 else url :: r.1, (url, tb.2) :: r.2)

/-- Three consecutive recorded failures (via `record_proxy_result`) at
times `t1`, `t2`, `t3` with the default `consecutive_failures_threshold`
of 3, starting from a health entry with no consecutive failures. -/
def threeFailures (h0 : ProxyHealth) (t1 t2 t3 dur : ℚ) : ProxyHealth :=
  updateHealth (updateHealth (updateHealth h0 false t1 3 dur) false t2 3 dur) false t3 3 dur

/-- The per-proxy selection weight from `ProxyManager.get_random_proxy`
lines 167-176: `max(1, int(success_rate * 10))` for a proxy with recorded
history — Python `int()` truncates toward zero, which on this
non-negative value is the floor — and the default weight 5 otherwise. -/
def proxyWeight (recent_results : List Bool) : ℕ :=
  if recent_results.length ≠ 0 then
    max 1 (⌊((recent_results.count true : ℚ) / recent_results.length) * 10⌋).toNat
  else 5

/-- The `weighted_proxies` list built by `get_random_proxy` lines
165-178: each healthy proxy repeated `weight` times
(`weighted_proxies.extend([proxy] * weight)`), in load order.  Input is
the healthy proxies paired with their `recent_results` history
(`self.proxy_performance.get(url, {}).get('recent_results', [])`). -/
def buildWeightedProxies : List (String × List Bool) → List String
  | [] => []
  | p :: rest => List.replicate (proxyWeight p.2) p.1 ++ buildWeightedProxies rest

/-- The pool from which `get_random_proxy` lines 150-183 draws uniformly
via `random.choice`: with more than one healthy proxy, the weighted list
(falling back to the plain healthy list were it empty); otherwise the
healthy list itself. -/
def getRandomProxyPool (healthy : List (String × List Bool)) : List String :=
  if 1 < healthy.length then
    if (buildWeightedProxies healthy).length ≠ 0 then buildWeightedProxies healthy
    else healthy.map Prod.fst
  else healthy.map Prod.fst

/-- The slice of `ProxyManager` state that `_attempt_proxy_recovery`
reads and writes: the loaded proxy urls in order, the failed set
(duplicate-free, modelled as a list) and the health map. -/
structure ProxyManagerState where
  proxies : List String
  failed_proxies : List String
  proxy_health : List (String × ProxyHealth)
deriving DecidableEq

/-- `self.proxy_health.get(proxy_url, {}).get('last_failure', 0)` from
lines 285-286: a proxy missing from the health map yields the default 0;
a present entry yields its `last_failure` field (which, when `None`,
would raise a `TypeError` in the subtraction of line 289 — the theorems
below therefore only classify proxies whose field is a number). -/
def lastFailureOf (health : List (String × ProxyHealth)) (url : String) : Option ℚ :=
  match health.lookup url with
  | none => some 0
  | some h => h.last_failure

/-- The `recovery_candidates` loop of `_attempt_proxy_recovery` lines
280-290: failed proxies whose last failure was more than 600 seconds
(10 minutes) ago. -/
def recoveryCandidates (s : ProxyManagerState) (now : ℚ) : List String :=
  s.proxies.filter fun url =>
    decide (url ∈ s.failed_proxies) &&
    (match lastFailureOf s.proxy_health url with
     | some t => decide (600 < now - t)
     | none => false)

/-- `recovery_count = min(len(recovery_candidates), len(self.proxies) // 4)`
from line 293. -/
def recoveryCount (s : ProxyManagerState) (now : ℚ) : ℕ :=
  min (recoveryCandidates s now).length (s.proxies.length / 4)

/-- `ProxyManager._attempt_proxy_recovery` from
`src/api/proxy_manager.py` lines 274-303.  `sample` stands for
`random.sample`; the theorems only assume it returns at most the
requested number of elements.  Runs only when the failed set holds at
least 80% of the pool; removes the sampled candidates from the failed
set and clears their consecutive-failure count and temporary ban. -/
def attemptProxyRecovery (s : ProxyManagerState) (now : ℚ)
    (sample : List String → ℕ → List String) : ProxyManagerState :=
  if (s.proxies.length : ℚ) * (8/10) ≤ (s.failed_proxies.length : ℚ) then
    if 0 < recoveryCount s now then
      { s with
        failed_proxies := s.failed_proxies.filter
          (fun u => decide (u ∉ sample (recoveryCandidates s now) (recoveryCount s now))),
        proxy_health := s.proxy_health.map (fun uh =>
          if uh.1 ∈ sample (recoveryCandidates s now) (recoveryCount s now) then
            (uh.1, { uh.2 with consecutive_failures := 0, banned_until := none })
          else uh) }
    else s
  else s

/-- A health entry that has a recorded failure time (used by the
concrete recovery scenario). -/
def failedAtZero : ProxyHealth :=
  { ProxyHealth.init with last_failure := some 0 }

/-- The concrete recovery scenario of the spec: 10 proxies, 9 of them
failed, every failure recorded at time 0. -/
def tenProxyState : ProxyManagerState :=
  { proxies := ["p1", "p2", "p3", "p4", "p5", "p6", "p7", "p8", "p9", "p10"]
    failed_proxies := ["p1", "p2", "p3", "p4", "p5", "p6", "p7", "p8", "p9"]
    proxy_health :=
      [("p1", failedAtZero), ("p2", failedAtZero), ("p3", failedAtZero),
       ("p4", failedAtZero), ("p5", failedAtZero), ("p6", failedAtZero),
       ("p7", failedAtZero), ("p8", failedAtZero), ("p9", failedAtZero),
       ("p10", ProxyHealth.init)] }

end ProxyManagerPy

namespace RateLimiterPy

/-- `RequestTracker.get_success_rate` from `src/core/rate_limiter.py`
lines 78-86 over the tracker's deque of (timestamp, success) pairs:
restrict to the trailing window of `window_minutes` minutes (timestamps
in seconds, `timedelta(minutes=w)` = `w * 60` seconds); an empty window
reports the perfect rate 1.0, otherwise the fraction of successes. -/
def getSuccessRate (requests : List (ℚ × Bool)) (now : ℚ)
    (window_minutes : ℚ) : ℚ :=
  let cutoff := now - window_minutes * 60
  let recent := requests.filter (fun r => decide (cutoff ≤ r.1))
  if recent.length = 0 then 1
  else ((recent.filter (fun r => r.2)).length : ℚ) / recent.length

end RateLimiterPy

namespace RequestQueuePy

/-- `RequestPriority` from `src/core/request_queue.py` lines 14-19. -/
inductive RequestPriority where
  | LOW
  | NORMAL
  | HIGH
  | CRITICAL
deriving DecidableEq

/-- The enum values: `LOW = 3`, `NORMAL = 2`, `HIGH = 1`, `CRITICAL = 0`
(lower value = served first). -/
def RequestPriority.value : RequestPriority → ℕ
  | .CRITICAL => 0
  | .HIGH => 1
  | .NORMAL => 2
  | .LOW => 3

/-- `QueuedRequest` from `src/core/request_queue.py` lines 22-32; the
`callback` field is an opaque function and is not part of the ordering or
retry state. -/
structure QueuedRequest where
  priority : RequestPriority
  sku : String
  zip_code : String
  retry_count : ℕ
  max_retries : ℕ
  created_at : ℚ
  scheduled_at : ℚ
deriving DecidableEq

/-- The capped exponential backoff of line 285:
`min(300, 30 * (2 ** retry_count))`. -/
def retryDelay (retry_count : ℕ) : ℚ :=
  min 300 (30 * 2 ^ retry_count)

/-- `SmartRequestQueue._handle_failed_request` from
`src/core/request_queue.py` lines 278-296: while the retry counter is
below `max_retries`, the counter is incremented FIRST and the backoff
delay is computed from the incremented counter; the job is rescheduled at
`now + delay` onto the retry queue (`some`).  Otherwise the job is
terminally failed (`none`). -/
def handleFailedRequest (r : QueuedRequest) (now : ℚ) : Option QueuedRequest :=
  if r.retry_count < r.max_retries then
    some { r with retry_count := r.retry_count + 1,
                  scheduled_at := now + retryDelay (r.retry_count + 1) }
  else
    none

/-- `QueuedRequest.__lt__` from `src/core/request_queue.py` lines 34-38:
compare priority values, ties broken by scheduled time. -/
def QueuedRequest.lt (a b : QueuedRequest) : Bool :=
  if a.priority.value ≠ b.priority.value then
    decide (a.priority.value < b.priority.value)
  else
    decide (a.scheduled_at < b.scheduled_at)

/-- The entry `add_request` line 159 puts into the `PriorityQueue`:
`(request.priority.value, request)`. -/
def mkEntry (r : QueuedRequest) : ℕ × QueuedRequest :=
  (r.priority.value, r)

/-- Python tuple comparison on queue entries: first components, ties
resolved by `QueuedRequest.__lt__`. -/
def entryLt (a b : ℕ × QueuedRequest) : Bool :=
  decide (a.1 < b.1) || (decide (a.1 = b.1) && QueuedRequest.lt a.2 b.2)

/-- A minimal entry of `e :: l` under the entry order (first minimal one). -/
def selectMinE (e : ℕ × QueuedRequest) : List (ℕ × QueuedRequest) → ℕ × QueuedRequest
  | [] => e
  | x :: xs => if entryLt x e then selectMinE x xs else selectMinE e xs

/-- The entry returned by `PriorityQueue.get` (line 195): the queue's
heap pops a least entry under the tuple order. -/
def queueMin (q : List (ℕ × QueuedRequest)) : Option (ℕ × QueuedRequest) :=
  match q with
  | [] => none
  | e :: es => some (selectMinE e es)

/-- `SmartRequestQueue._update_adaptive_delay` from
`src/core/request_queue.py` lines 326-342: below an 80% success rate the
delay grows by the factor 1.2 capped at 10; above 95% it shrinks by the
factor 0.9 floored at 1; otherwise it is unchanged. -/
def updateAdaptiveDelay (adaptive_delay : ℚ) (current_success_rate : ℚ) : ℚ :=
  if current_success_rate < 8/10 then min 10 (adaptive_delay * (12/10))
  else if 95/100 < current_success_rate then max 1 (adaptive_delay * (9/10))
  else adaptive_delay

/-- A freshly enqueued job: zero retries, default `max_retries = 3`. -/
def freshJob : QueuedRequest :=
  { priority := .NORMAL, sku := "sku1", zip_code := "30301",
    retry_count := 0, max_retries := 3, created_at := 0, scheduled_at := 0 }

/-- Example jobs for the ordering scenario: one LOW job and two CRITICAL
jobs with different scheduled times. -/
def jobLow : QueuedRequest :=
  { priority := .LOW, sku := "a", zip_code := "z",
    retry_count := 0, max_retries := 3, created_at := 0, scheduled_at := 5 }

def jobCritLate : QueuedRequest :=
  { priority := .CRITICAL, sku := "b", zip_code := "z",
    retry_count := 0, max_retries := 3, created_at := 0, scheduled_at := 9 }

def jobCritEarly : QueuedRequest :=
  { priority := .CRITICAL, sku := "c", zip_code := "z",
    retry_count := 0, max_retries := 3, created_at := 0, scheduled_at := 7 }

end RequestQueuePy

section TokenBucketTheorems

open RateLimiterPy

/-- Single-call facts used by the conservation proof. -/
theorem tokenBucket_consume_step (b : TokenBucket) (now n : ℚ)
    (hwf : b.WF) (hr : 0 ≤ b.refill_rate) (ht : b.last_refill ≤ now) (hn : 0 ≤ n) :
    (b.consume now n).2.WF ∧ (b.consume now n).2.last_refill = now ∧
    (b.consume now n).2.refill_rate = b.refill_rate := by
  obtain ⟨h0, hc⟩ := hwf
  have hcap : 0 ≤ b.capacity := le_trans h0 hc
  have hrefl : 0 ≤ b.tokens + (now - b.last_refill) * b.refill_rate := by
    have : 0 ≤ (now - b.last_refill) * b.refill_rate :=
      mul_nonneg (by linarith) hr
    linarith
  unfold TokenBucket.consume
  dsimp only
  split
  · refine ⟨⟨?_, ?_⟩, rfl, rfl⟩
    · dsimp only; linarith
    · dsimp only
      have := min_le_left b.capacity (b.tokens + (now - b.last_refill) * b.refill_rate)
      linarith
  · refine ⟨⟨?_, ?_⟩, rfl, rfl⟩
    · dsimp only
      exact le_min hcap hrefl
    · dsimp only
      exact min_le_left _ _

/-- Claim C2: token conservation for `TokenBucket`.  For every bucket with
`0 ≤ tokens ≤ capacity`, a non-negative refill rate, and any sequence of
`consume` calls made at non-decreasing times with non-negative requests,
the available tokens stay within `[0, capacity]`; and a `consume` call
that returns `false` leaves the token count exactly at the refill value
`min capacity (tokens + elapsed * rate)` — unchanged except for the
elapsed-time refill. -/
theorem tokenBucket_conservation (b : TokenBucket) (calls : List (ℚ × ℚ))
    (hwf : b.WF) (hr : 0 ≤ b.refill_rate) (hv : ValidCalls b.last_refill calls) :
    (b.consumeSeq calls).WF ∧
    ∀ now n, (b.consume now n).1 = false →
      (b.consume now n).2.tokens
          = min b.capacity (b.tokens + (now - b.last_refill) * b.refill_rate) ∧
      (b.consume now n).2.capacity = b.capacity := by
  constructor
  · induction calls generalizing b with
    | nil => exact hwf
    | cons c cs ih =>
      obtain ⟨ht, hn, hv'⟩ := hv
      obtain ⟨hwf', hlast, hrate⟩ := tokenBucket_consume_step b c.1 c.2 hwf hr ht hn
      exact ih (b.consume c.1 c.2).2 hwf' (by rw [hrate]; exact hr) (by rw [hlast]; exact hv')
  · intro now n hfail
    unfold TokenBucket.consume at hfail ⊢
    dsimp only at hfail ⊢
    by_cases hle : n ≤ min b.capacity (b.tokens + (now - b.last_refill) * b.refill_rate)
    · simp [hle] at hfail
    · simp [hle]

/-- Witness for C2 at a concrete bucket and call sequence. -/
theorem tokenBucket_conservation_witness :
    ((TokenBucket.mk 10 10 1 0).consumeSeq [(1, 1), (2, 12), (3, 4)]).WF :=
  (tokenBucket_conservation (TokenBucket.mk 10 10 1 0) [(1, 1), (2, 12), (3, 4)]
    (by constructor <;> norm_num)
    (by norm_num)
    (by refine ⟨by norm_num, by norm_num, by norm_num, by norm_num, by norm_num, by norm_num, trivial⟩)).1

/-- Claim C1: the claimed admission atomicity fails on the source.  At the
concrete depleted limiter (minute bucket empty, hour at 5, day at 7, no
elapsed time so the refill is the identity), `can_make_request` returns
`false` but the aggregate token count moves from 12 to 13: the refund loop
increments every non-full bucket, so the minute bucket — which consumed
nothing — is handed a token it never held.  The spec (§9) itself flags
this refund-on-denial behaviour as a source bug. -/
theorem can_make_request_denied_mints_token :
    (RateLimiterPy.depletedLimiter.can_make_request 0).1.1 = false ∧
    RateLimiterPy.depletedLimiter.aggregateTokens = 12 ∧
    ((RateLimiterPy.depletedLimiter.can_make_request 0).2).aggregateTokens = 13 := by
  refine ⟨?_, ?_, ?_⟩ <;> norm_num [RateLimiterPy.depletedLimiter,
    RateLimiterPy.EnhancedRateLimiter.can_make_request,
    RateLimiterPy.EnhancedRateLimiter.aggregateTokens,
    RateLimiterPy.CircuitBreaker.is_open, RateLimiterPy.TokenBucket.consume,
    RateLimiterPy.refundOne]

end TokenBucketTheorems

section CircuitBreakerTheorems

open CircuitBreakerPy
open RateLimiterPy (CircuitState)

/-- Claim C3: transition sequence of the standalone breaker constructed
with `failure_threshold = 3`, `recovery_timeout = 10`, and
`success_threshold = 2`.  From the fresh `CLOSED` state, three consecutive
`record_failure` calls reach `OPEN`; once at least 10 time units have
passed since the last failure, the next `can_execute` admits and moves to
`HALF_OPEN`; two consecutive `record_success` calls then reach `CLOSED`
with the failure count reset to 0. -/
theorem circuitBreaker_transition_sequence (t1 t2 t3 now : ℚ)
    (ht3 : t3 ≠ 0) (hrec : 10 ≤ now - t3) :
    ((((CircuitBreaker.init 3 10 2).record_failure t1).record_failure
        t2).record_failure t3).state = CircuitState.OPEN ∧
    (((((CircuitBreaker.init 3 10 2).record_failure t1).record_failure
        t2).record_failure t3).can_execute now).1 = true ∧
    (((((CircuitBreaker.init 3 10 2).record_failure t1).record_failure
        t2).record_failure t3).can_execute now).2.state = CircuitState.HALF_OPEN ∧
    ((((((CircuitBreaker.init 3 10 2).record_failure t1).record_failure
        t2).record_failure t3).can_execute now).2.record_success.record_success).state
      = CircuitState.CLOSED ∧
    ((((((CircuitBreaker.init 3 10 2).record_failure t1).record_failure
        t2).record_failure t3).can_execute now).2.record_success.record_success).failure_count
      = 0 := by
  have h1 : (((CircuitBreaker.init 3 10 2).record_failure t1).record_failure
      t2).record_failure t3
      = (⟨3, 10, 2, 3, 0, some t3, .OPEN⟩ : CircuitBreaker) := by
    norm_num [CircuitBreaker.record_failure, CircuitBreaker.init]
  have h2 : ((⟨3, 10, 2, 3, 0, some t3, .OPEN⟩ : CircuitBreaker).can_execute now)
      = (true, (⟨3, 10, 2, 3, 0, some t3, .HALF_OPEN⟩ : CircuitBreaker)) := by
    unfold CircuitBreaker.can_execute
    simp only [RateLimiterPy.truthyTime]
    rw [if_pos]
    simp only [Bool.and_eq_true, bne_iff_ne, ne_eq, decide_eq_true_eq]
    exact ⟨ht3, hrec⟩
  rw [h1, h2]
  refine ⟨rfl, rfl, rfl, ?_, ?_⟩ <;>
    norm_num [CircuitBreaker.record_success]

/-- Witness for C3 at failure times 1, 2, 3 and an admission check at
time 13. -/
theorem circuitBreaker_transition_sequence_witness :
    ((((CircuitBreaker.init 3 10 2).record_failure 1).record_failure
        2).record_failure 3).state = CircuitState.OPEN ∧
    (((((CircuitBreaker.init 3 10 2).record_failure 1).record_failure
        2).record_failure 3).can_execute 13).1 = true ∧
    (((((CircuitBreaker.init 3 10 2).record_failure 1).record_failure
        2).record_failure 3).can_execute 13).2.state = CircuitState.HALF_OPEN ∧
    ((((((CircuitBreaker.init 3 10 2).record_failure 1).record_failure
        2).record_failure 3).can_execute 13).2.record_success.record_success).state
      = CircuitState.CLOSED ∧
    ((((((CircuitBreaker.init 3 10 2).record_failure 1).record_failure
        2).record_failure 3).can_execute 13).2.record_success.record_success).failure_count
      = 0 :=
  circuitBreaker_transition_sequence 1 2 3 13 (by norm_num) (by norm_num)

/-- Every single step of the breaker preserves the hidden invariant: away
from `CLOSED`, the failure count has reached the threshold. -/
theorem cb_step_preserves_inv (cb : CircuitBreaker) (e : CBEvent)
    (h : cb.Inv) : (cb.step e).Inv := by
  cases e with
  | fail t =>
    show (cb.record_failure t).Inv
    unfold CircuitBreaker.record_failure
    dsimp only
    split
    · rename_i hcond
      intro _
      exact hcond.2
    · intro hne
      have h2 := h hne
      show cb.failure_threshold ≤ cb.failure_count + 1
      omega
  | succeed =>
    show cb.record_success.Inv
    unfold CircuitBreaker.record_success
    cases hs : cb.state with
    | HALF_OPEN =>
      dsimp only
      split
      · intro hne
        exact absurd rfl hne
      · intro _
        exact h (by rw [hs]; intro hc; cases hc)
    | CLOSED =>
      intro hne
      exact absurd rfl hne
    | OPEN => exact h
  | query t =>
    show ((cb.can_execute t).2).Inv
    unfold CircuitBreaker.can_execute
    cases hs : cb.state with
    | CLOSED => exact h
    | OPEN =>
      dsimp only
      split
      · intro _
        exact h (by rw [hs]; intro hc; cases hc)
      · exact h
    | HALF_OPEN => exact h
  | reset =>
    intro hne
    exact absurd rfl hne

/-- Running any event list preserves the invariant. -/
theorem cb_run_preserves_inv (cb : CircuitBreaker) (es : List CBEvent)
    (h : cb.Inv) : (cb.run es).Inv := by
  induction es generalizing cb with
  | nil => exact h
  | cons e es ih => exact ih _ (cb_step_preserves_inv cb e h)

/-- Claim C8: from every breaker state reachable from a fresh breaker
(with arbitrary thresholds) whose state is `HALF_OPEN`, a single
`record_failure` call moves the breaker to `OPEN`.  This relies on the
invariant that the failure count never drops below the threshold outside
`CLOSED` — entering `HALF_OPEN` resets only the success counter. -/
theorem circuitBreaker_halfOpen_failure_opens (ft : ℕ) (rt : ℚ) (st : ℕ)
    (es : List CBEvent) (t : ℚ)
    (h : ((CircuitBreaker.init ft rt st).run es).state = CircuitState.HALF_OPEN) :
    (((CircuitBreaker.init ft rt st).run es).record_failure t).state
      = CircuitState.OPEN := by
  have hinv : ((CircuitBreaker.init ft rt st).run es).Inv :=
    cb_run_preserves_inv _ es (fun hne => absurd rfl hne)
  have hle := hinv (by rw [h]; intro hc; cases hc)
  unfold CircuitBreaker.record_failure
  dsimp only
  rw [if_pos ⟨Or.inr h, le_trans hle (Nat.le_succ _)⟩]

/-- Witness for C8: a breaker with thresholds (1, 10, 1) driven through
one failure at time 1 and one admission query at time 11 sits in
`HALF_OPEN`; a failure at time 12 then opens it. -/
theorem circuitBreaker_halfOpen_failure_opens_witness :
    ((CircuitBreaker.init 1 10 1).run [CBEvent.fail 1, CBEvent.query 11]).state
      = CircuitState.HALF_OPEN ∧
    (((CircuitBreaker.init 1 10 1).run [CBEvent.fail 1, CBEvent.query 11]).record_failure
      12).state = CircuitState.OPEN :=
  ⟨by norm_num [CircuitBreaker.run, CircuitBreaker.step, CircuitBreaker.record_failure,
      CircuitBreaker.can_execute, CircuitBreaker.init, RateLimiterPy.truthyTime],
   circuitBreaker_halfOpen_failure_opens 1 10 1 [CBEvent.fail 1, CBEvent.query 11] 12
     (by norm_num [CircuitBreaker.run, CircuitBreaker.step, CircuitBreaker.record_failure,
        CircuitBreaker.can_execute, CircuitBreaker.init, RateLimiterPy.truthyTime])⟩

end CircuitBreakerTheorems

section ProxyManagerTheorems

open ProxyManagerPy

/-- Claim C4: proxy temporary-ban lifecycle.  From a health entry with no
consecutive failures, three consecutive recorded failures (default
threshold 3) set `banned_until = t3 + ban_duration`; while the ban is
active the endpoint is reported banned and contributes nothing to the
healthy list (unavailable for selection); once the ban duration has
elapsed, the next health check reports it not banned, clears the ban and
resets the consecutive-failure count, and the endpoint reappears in the
healthy list. -/
theorem proxyBan_lifecycle (h0 : ProxyHealth) (t1 t2 t3 dur now1 now2 : ℚ)
    (url : String) (failed banned : List String)
    (others : List (String × ProxyHealth))
    (hcf : h0.consecutive_failures = 0)
    (ht3 : 0 ≤ t3) (hdur : 0 < dur)
    (hnow1 : now1 < t3 + dur) (hnow2 : t3 + dur ≤ now2)
    (hf : url ∉ failed) (hb : url ∉ banned) :
    (threeFailures h0 t1 t2 t3 dur).consecutive_failures = 3 ∧
    (threeFailures h0 t1 t2 t3 dur).banned_until = some (t3 + dur) ∧
    (isProxyTemporarilyBanned (threeFailures h0 t1 t2 t3 dur) now1).1 = true ∧
    (getHealthyProxies now1 failed banned
        ((url, threeFailures h0 t1 t2 t3 dur) :: others)).1
      = (getHealthyProxies now1 failed banned others).1 ∧
    isProxyTemporarilyBanned (threeFailures h0 t1 t2 t3 dur) now2
      = (false, { threeFailures h0 t1 t2 t3 dur with
                    banned_until := none, consecutive_failures := 0 }) ∧
    (getHealthyProxies now2 failed banned
        ((url, threeFailures h0 t1 t2 t3 dur) :: others)).1
      = url :: (getHealthyProxies now2 failed banned others).1 := by
  have hpos : (0:ℚ) < t3 + dur := by linarith
  have hb3 : threeFailures h0 t1 t2 t3 dur
      = ⟨3, h0.total_requests + 3, h0.successful_requests, h0.last_success,
          some t3, some (t3 + dur)⟩ := by
    norm_num [threeFailures, updateHealth, hcf]
  refine ⟨by rw [hb3], by rw [hb3], ?_, ?_, ?_, ?_⟩
  · rw [hb3]
    simp [isProxyTemporarilyBanned, hpos.ne', hnow1]
  · rw [hb3]
    simp [getHealthyProxies, hf, hb, isProxyTemporarilyBanned, hpos.ne', hnow1]
  · rw [hb3]
    simp [isProxyTemporarilyBanned, hpos.ne', not_lt.mpr hnow2]
  · rw [hb3]
    simp [getHealthyProxies, hf, hb, isProxyTemporarilyBanned, hpos.ne',
      not_lt.mpr hnow2]

/-- Witness for C4: fresh health entry, failures at times 1, 2, 3, the
default 3600-second ban, a banned check at time 100 and an expired check
at time 4000. -/
theorem proxyBan_lifecycle_witness :
    (threeFailures ProxyHealth.init 1 2 3 3600).consecutive_failures = 3 ∧
    (threeFailures ProxyHealth.init 1 2 3 3600).banned_until = some (3 + 3600) ∧
    (isProxyTemporarilyBanned (threeFailures ProxyHealth.init 1 2 3 3600) 100).1 = true ∧
    (getHealthyProxies 100 [] []
        [("p", threeFailures ProxyHealth.init 1 2 3 3600)]).1
      = (getHealthyProxies 100 [] [] []).1 ∧
    isProxyTemporarilyBanned (threeFailures ProxyHealth.init 1 2 3 3600) 4000
      = (false, { threeFailures ProxyHealth.init 1 2 3 3600 with
                    banned_until := none, consecutive_failures := 0 }) ∧
    (getHealthyProxies 4000 [] []
        [("p", threeFailures ProxyHealth.init 1 2 3 3600)]).1
      = "p" :: (getHealthyProxies 4000 [] [] []).1 :=
  proxyBan_lifecycle ProxyHealth.init 1 2 3 3600 100 4000 "p" [] [] []
    rfl (by norm_num) (by norm_num) (by norm_num) (by norm_num)
    (by simp) (by simp)

/-- Every url in the weighted list is one of the healthy proxies. -/
theorem mem_buildWeightedProxies (l : List (String × List Bool)) (x : String)
    (hx : x ∈ buildWeightedProxies l) : x ∈ l.map Prod.fst := by
  induction l with
  | nil => simp [buildWeightedProxies] at hx
  | cons p rest ih =>
    simp only [buildWeightedProxies, List.mem_append] at hx
    rcases hx with h | h
    · have := List.eq_of_mem_replicate h
      simp [this]
    · simp [ih h]

/-- The selection weight is always positive. -/
theorem proxyWeight_pos (res : List Bool) : 0 < proxyWeight res := by
  unfold proxyWeight
  split
  · exact lt_of_lt_of_le one_pos (le_max_left _ _)
  · norm_num

/-- In the weighted list, a healthy proxy occurs exactly its weight many
times (urls assumed pairwise distinct, as in a loaded proxy file). -/
theorem count_buildWeightedProxies (healthy : List (String × List Bool))
    (url : String) (res : List Bool)
    (hmem : (url, res) ∈ healthy) (hnodup : (healthy.map Prod.fst).Nodup) :
    (buildWeightedProxies healthy).count url = proxyWeight res := by
  induction healthy with
  | nil => cases hmem
  | cons p rest ih =>
    simp only [buildWeightedProxies, List.count_append]
    simp only [List.map_cons, List.nodup_cons] at hnodup
    rcases List.mem_cons.mp hmem with heq | hmem'
    · rw [← heq] at hnodup ⊢
      have h0 : (buildWeightedProxies rest).count url = 0 := by
        rw [List.count_eq_zero]
        intro hmem2
        exact hnodup.1 (mem_buildWeightedProxies rest url hmem2)
      simp [h0, List.count_replicate_self]
    · have hne : p.1 ≠ url := by
        intro hEq
        exact hnodup.1 (hEq ▸ List.mem_map_of_mem Prod.fst hmem')
      have h1 : (List.replicate (proxyWeight p.2) p.1).count url = 0 := by
        rw [List.count_eq_zero]
        intro hmem2
        exact hne (List.eq_of_mem_replicate hmem2).symm
      simp [h1, ih hmem' hnodup.2]

/-- Claim C6, amended: when more than one healthy endpoint exists,
`get_random_proxy` draws uniformly from a pool in which an endpoint with
recorded history occurs `max 1 (truncate (recent_success_rate * 10))`
times — Python `int()` truncates; the claim's `round` is wrong — and an
endpoint with no recorded history occurs the default 5 times. -/
theorem getRandomProxy_weighted_selection (healthy : List (String × List Bool))
    (url : String) (res : List Bool)
    (hmem : (url, res) ∈ healthy) (hnodup : (healthy.map Prod.fst).Nodup)
    (hlen : 1 < healthy.length) :
    (getRandomProxyPool healthy).count url = proxyWeight res ∧
    proxyWeight [] = 5 := by
  constructor
  · unfold getRandomProxyPool
    rw [if_pos hlen]
    have hne : (buildWeightedProxies healthy).length ≠ 0 := by
      cases healthy with
      | nil => simp at hlen
      | cons p rest =>
        have := proxyWeight_pos p.2
        simp [buildWeightedProxies]
        omega
    rw [if_pos hne]
    exact count_buildWeightedProxies healthy url res hmem hnodup
  · norm_num [proxyWeight]

/-- Witness for C6 (amended): two healthy proxies, one with history
3-of-4 successes (weight 7), one untested. -/
theorem getRandomProxy_weighted_selection_witness :
    (getRandomProxyPool [("a", [true, true, true, false]), ("b", [])]).count "a"
      = proxyWeight [true, true, true, false] ∧
    proxyWeight [] = 5 :=
  getRandomProxy_weighted_selection [("a", [true, true, true, false]), ("b", [])]
    "a" [true, true, true, false] (by simp) (by decide) (by norm_num)

/-- Claim C6 as stated is false on the code: for the recorded history
`[true, true, true, false]` (success rate 3/4) the source computes weight
`max(1, int(7.5)) = 7`, while the claimed formula
`max(1, round(recent_success_rate * 10))` gives 8. -/
theorem getRandomProxy_round_counterexample :
    proxyWeight [true, true, true, false] = 7 ∧
    max 1 (round ((List.count true [true, true, true, false] : ℚ) /
        (List.length [true, true, true, false]) * 10)).toNat = 8 := by
  constructor
  · norm_num [proxyWeight]
    decide
  · norm_num [round_eq]
    decide

/-- Splitting a list by a predicate splits its length. -/
theorem length_filter_add_length_filter_not (l : List String) (p : String → Bool) :
    l.length = (l.filter p).length + (l.filter (fun a => !(p a))).length := by
  induction l with
  | nil => rfl
  | cons a t ih =>
    cases h : p a <;> simp [List.filter_cons, h, ih] <;> omega

/-- Claim C7: pool-wide recovery bound.  (i) With under 80% of the pool
failed, a recovery pass changes nothing.  (ii) The recovery candidates
are exactly the loaded, failed endpoints whose recorded last failure lies
more than 600 seconds in the past.  (iii) One pass removes at most
`⌊N/4⌋` endpoints from the failed set (assuming only that `random.sample`
returns at most the requested number of elements).  (iv) Every sampled
endpoint's health entry ends with consecutive-failure count 0 and no
temporary ban. -/
theorem proxyRecovery_bound (s : ProxyManagerState) (now : ℚ)
    (sample : List String → ℕ → List String)
    (hnodup : s.failed_proxies.Nodup)
    (hsample : ∀ l k, (sample l k).length ≤ k) :
    ((s.failed_proxies.length : ℚ) < (s.proxies.length : ℚ) * (8/10) →
        attemptProxyRecovery s now sample = s) ∧
    (∀ url, url ∈ recoveryCandidates s now ↔
        url ∈ s.proxies ∧ url ∈ s.failed_proxies ∧
        ∃ t, lastFailureOf s.proxy_health url = some t ∧ 600 < now - t) ∧
    s.failed_proxies.length
      ≤ (attemptProxyRecovery s now sample).failed_proxies.length
        + s.proxies.length / 4 ∧
    (∀ url h, (s.proxies.length : ℚ) * (8/10) ≤ (s.failed_proxies.length : ℚ) →
        0 < recoveryCount s now →
        (url, h) ∈ (attemptProxyRecovery s now sample).proxy_health →
        url ∈ sample (recoveryCandidates s now) (recoveryCount s now) →
        h.consecutive_failures = 0 ∧ h.banned_until = none) := by
  refine ⟨?_, ?_, ?_, ?_⟩
  · intro hlt
    unfold attemptProxyRecovery
    rw [if_neg (not_le.mpr hlt)]
  · intro url
    unfold recoveryCandidates
    rcases hlf : lastFailureOf s.proxy_health url with _ | t
    · simp [List.mem_filter, hlf]
    · simp [List.mem_filter, hlf]
  · by_cases hc1 : (s.proxies.length : ℚ) * (8/10) ≤ (s.failed_proxies.length : ℚ)
    · by_cases hc2 : 0 < recoveryCount s now
      · unfold attemptProxyRecovery
        rw [if_pos hc1, if_pos hc2]
        dsimp only
        set r := sample (recoveryCandidates s now) (recoveryCount s now) with hr
        have hsplit := length_filter_add_length_filter_not s.failed_proxies
          (fun u => decide (u ∉ r))
        have hsubset : (s.failed_proxies.filter (fun u => !(decide (u ∉ r)))) ⊆ r := by
          intro x hx
          have := List.of_mem_filter hx
          simpa using this
        have hnd2 : (s.failed_proxies.filter (fun u => !(decide (u ∉ r)))).Nodup :=
          hnodup.filter _
        have hle2 : (s.failed_proxies.filter (fun u => !(decide (u ∉ r)))).length
            ≤ r.length := (hnd2.subperm hsubset).length_le
        have hle3 : r.length ≤ recoveryCount s now := hsample _ _
        have hle4 : recoveryCount s now ≤ s.proxies.length / 4 := min_le_right _ _
        omega
      · unfold attemptProxyRecovery
        rw [if_pos hc1, if_neg hc2]
        omega
    · unfold attemptProxyRecovery
      rw [if_neg hc1]
      omega
  · intro url h hc1 hc2 hmem hrec
    unfold attemptProxyRecovery at hmem
    rw [if_pos hc1, if_pos hc2] at hmem
    dsimp only at hmem
    rcases List.mem_map.mp hmem with ⟨uh, huh, heq⟩
    by_cases hin : uh.1 ∈ sample (recoveryCandidates s now) (recoveryCount s now)
    · rw [if_pos hin] at heq
      cases heq
      exact ⟨rfl, rfl⟩
    · rw [if_neg hin] at heq
      rw [heq] at hin
      exact absurd hrec hin

/-- Witness for C7 at the spec's concrete scenario: 10 proxies, 9 failed
more than 10 minutes ago — the pass un-fails at most `10 / 4 = 2`. -/
theorem proxyRecovery_bound_witness :
    tenProxyState.failed_proxies.length
      ≤ (attemptProxyRecovery tenProxyState 1000
          (fun l k => l.take k)).failed_proxies.length
        + tenProxyState.proxies.length / 4 :=
  (proxyRecovery_bound tenProxyState 1000 (fun l k => l.take k)
    (by decide)
    (fun l k => by rw [List.length_take]; exact min_le_left _ _)).2.2.1

end ProxyManagerTheorems

section RequestQueueTheorems

open RequestQueuePy

/-- Claim C5 as stated is false on the code: for a fresh job (retry count
0) failing at time 0, the source schedules the retry at `0 + 60`, because
it increments the retry counter before computing the backoff — while the
claimed formula `min(300, 30 * 2 ^ retry_count)` over the pre-increment
count gives 30. -/
theorem retry_backoff_counterexample :
    (handleFailedRequest freshJob 0).map QueuedRequest.scheduled_at = some 60 ∧
    (0:ℚ) + min 300 (30 * 2 ^ freshJob.retry_count) = 30 ∧
    (handleFailedRequest freshJob 0).map QueuedRequest.scheduled_at
      ≠ some ((0:ℚ) + min 300 (30 * 2 ^ freshJob.retry_count)) := by
  refine ⟨?_, ?_, ?_⟩ <;>
    norm_num [handleFailedRequest, freshJob, retryDelay]

/-- Claim C5, amended: when a job fails with its retry counter below
`max_retries`, the counter is incremented and the job is rescheduled at
`now + min(300, 30 * 2 ^ (incremented count))` onto the retry path; the
delay is computed from the counter AFTER the increment.  Successive retry
delays are non-decreasing and never exceed the 300-second cap. -/
theorem retry_backoff (r : QueuedRequest) (now : ℚ)
    (h : r.retry_count < r.max_retries) :
    handleFailedRequest r now
      = some { r with retry_count := r.retry_count + 1,
                      scheduled_at := now + retryDelay (r.retry_count + 1) } ∧
    (∀ k : ℕ, retryDelay k ≤ retryDelay (k + 1) ∧ retryDelay k ≤ 300) := by
  constructor
  · unfold handleFailedRequest
    rw [if_pos h]
  · intro k
    constructor
    · unfold retryDelay
      apply min_le_min le_rfl
      have h2 : (2:ℚ) ^ k ≤ 2 ^ (k + 1) :=
        pow_le_pow_right₀ (by norm_num) (Nat.le_succ k)
      linarith
    · exact min_le_left _ _

/-- Witness for C5 (amended) at the fresh job failing at time 0. -/
theorem retry_backoff_witness :
    handleFailedRequest freshJob 0
      = some { freshJob with retry_count := 1, scheduled_at := 0 + retryDelay 1 } ∧
    retryDelay 1 ≤ retryDelay 2 ∧ retryDelay 1 ≤ 300 :=
  ⟨(retry_backoff freshJob 0 (by decide)).1,
   ((retry_backoff freshJob 0 (by decide)).2 1).1,
   ((retry_backoff freshJob 0 (by decide)).2 1).2⟩

/-- `QueuedRequest.__lt__` characterised: lexicographic on (priority
value, scheduled time). -/
theorem qlt_iff (a b : QueuedRequest) :
    QueuedRequest.lt a b = true ↔
      (a.priority.value < b.priority.value ∨
        (a.priority.value = b.priority.value ∧ a.scheduled_at < b.scheduled_at)) := by
  unfold QueuedRequest.lt
  by_cases h : a.priority.value = b.priority.value
  · simp [h]
  · simp [h]

/-- The entry order characterised: lexicographic on (key, priority value,
scheduled time). -/
theorem entryLt_iff (a b : ℕ × QueuedRequest) :
    entryLt a b = true ↔
      (a.1 < b.1 ∨ (a.1 = b.1 ∧
        (a.2.priority.value < b.2.priority.value ∨
          (a.2.priority.value = b.2.priority.value ∧
            a.2.scheduled_at < b.2.scheduled_at)))) := by
  unfold entryLt
  simp [qlt_iff]

theorem entryLt_irrefl (a : ℕ × QueuedRequest) : entryLt a a = false := by
  cases hb : entryLt a a
  · rfl
  · exfalso
    have h2 := (entryLt_iff a a).mp hb
    simp at h2

theorem entryLt_trans {a b c : ℕ × QueuedRequest} (hab : entryLt a b = true)
    (hbc : entryLt b c = true) : entryLt a c = true := by
  rw [entryLt_iff] at hab hbc ⊢
  rcases hab with h1 | ⟨h1, h2⟩
  · rcases hbc with h3 | ⟨h3, h4⟩
    · left; omega
    · left; omega
  · rcases hbc with h3 | ⟨h3, h4⟩
    · left; omega
    · right
      refine ⟨by omega, ?_⟩
      rcases h2 with hv | ⟨hv, hs⟩
      · rcases h4 with hv2 | ⟨hv2, hs2⟩
        · left; omega
        · left; omega
      · rcases h4 with hv2 | ⟨hv2, hs2⟩
        · left; omega
        · right
          exact ⟨by omega, lt_trans hs hs2⟩

theorem entryLt_of_not_of_lt {y e m : ℕ × QueuedRequest}
    (h1 : entryLt y e = false) (h2 : entryLt y m = true) :
    entryLt e m = true := by
  have h1b : ¬(entryLt y e = true) := by simp [h1]
  rw [entryLt_iff] at h1b h2 ⊢
  push_neg at h1b
  obtain ⟨ha, hb⟩ := h1b
  rcases h2 with h3 | ⟨h3, h4⟩
  · left; omega
  · by_cases hcase : e.1 < y.1
    · left; omega
    · have he1 : y.1 = e.1 := by omega
      obtain ⟨hv1, hv2⟩ := hb he1
      right
      refine ⟨by omega, ?_⟩
      rcases h4 with hv | ⟨hv, hs⟩
      · left; omega
      · by_cases hcase2 : e.2.priority.value < y.2.priority.value
        · left; omega
        · have hev : y.2.priority.value = e.2.priority.value := by omega
          right
          exact ⟨by omega, lt_of_le_of_lt (hv2 hev) hs⟩

/-- The selected minimum is one of the queued entries. -/
theorem selectMinE_mem (e : ℕ × QueuedRequest) (l : List (ℕ × QueuedRequest)) :
    selectMinE e l ∈ e :: l := by
  induction l generalizing e with
  | nil => simp [selectMinE]
  | cons x xs ih =>
    unfold selectMinE
    split
    · have h2 := ih x
      simp only [List.mem_cons] at h2 ⊢
      tauto
    · have h2 := ih e
      simp only [List.mem_cons] at h2 ⊢
      tauto

/-- No queued entry is strictly below the selected minimum. -/
theorem selectMinE_not_lt (e : ℕ × QueuedRequest) (l : List (ℕ × QueuedRequest)) :
    ∀ x ∈ e :: l, entryLt x (selectMinE e l) = false := by
  induction l generalizing e with
  | nil =>
    intro x hx
    simp only [List.mem_cons, List.not_mem_nil, or_false] at hx
    subst hx
    simp [selectMinE, entryLt_irrefl]
  | cons y ys ih =>
    intro x hx
    unfold selectMinE
    by_cases h : entryLt y e = true
    · rw [if_pos h]
      rcases List.mem_cons.mp hx with rfl | hx2
      · cases hev : entryLt x (selectMinE y ys)
        · rfl
        · exfalso
          have hym := ih y y (by simp)
          have h3 : entryLt y (selectMinE y ys) = true := entryLt_trans h hev
          rw [hym] at h3
          cases h3
      · exact ih y x hx2
    · have hf : entryLt y e = false := by
        cases hb : entryLt y e
        · rfl
        · exact absurd hb h
      rw [if_neg h]
      rcases List.mem_cons.mp hx with rfl | hx2
      · exact ih x x (by simp)
      · rcases List.mem_cons.mp hx2 with rfl | hx3
        · cases hev : entryLt x (selectMinE e ys)
          · rfl
          · exfalso
            have hem : entryLt e (selectMinE e ys) = true :=
              entryLt_of_not_of_lt hf hev
            have h3 := ih e e (by simp)
            rw [h3] at hem
            cases hem
        · exact ih e x (by simp [hx3])

/-- Claim C9: priority ordering of the queue.  For any queue of entries
as built by `add_request` (key = the job's priority value), the entry the
priority queue serves is a queued entry whose job's priority value is no
larger than every queued job's, and among jobs of equal priority value
its scheduled time is no later. -/
theorem queue_priority_order (q : List (ℕ × QueuedRequest))
    (m : ℕ × QueuedRequest)
    (hwf : ∀ x ∈ q, x.1 = x.2.priority.value)
    (hmin : queueMin q = some m) :
    m ∈ q ∧
    ∀ x ∈ q, m.2.priority.value ≤ x.2.priority.value ∧
      (x.2.priority.value = m.2.priority.value →
        m.2.scheduled_at ≤ x.2.scheduled_at) := by
  match q with
  | [] => cases hmin
  | e :: es =>
    have hm : m = selectMinE e es := by
      simpa [queueMin] using hmin.symm
    subst hm
    refine ⟨selectMinE_mem e es, ?_⟩
    intro x hx
    have hnl := selectMinE_not_lt e es x hx
    have hwx := hwf x hx
    have hwm := hwf _ (selectMinE_mem e es)
    have hprop : ¬(x.1 < (selectMinE e es).1 ∨ (x.1 = (selectMinE e es).1 ∧
        (x.2.priority.value < (selectMinE e es).2.priority.value ∨
          (x.2.priority.value = (selectMinE e es).2.priority.value ∧
            x.2.scheduled_at < (selectMinE e es).2.scheduled_at)))) := by
      rw [← entryLt_iff]
      simp [hnl]
    push_neg at hprop
    obtain ⟨h1, h2⟩ := hprop
    constructor
    · rw [hwx, hwm] at h1
      exact h1
    · intro heq
      have hkey : x.1 = (selectMinE e es).1 := by rw [hwx, hwm]; exact heq
      obtain ⟨hv, hs⟩ := h2 hkey
      exact hs heq

/-- Witness for C9: a queue holding one LOW job and two CRITICAL jobs
(scheduled at 9 and at 7) serves the CRITICAL job scheduled at 7. -/
theorem queue_priority_order_witness :
    mkEntry jobCritEarly ∈ [mkEntry jobLow, mkEntry jobCritLate, mkEntry jobCritEarly] ∧
    ∀ x ∈ [mkEntry jobLow, mkEntry jobCritLate, mkEntry jobCritEarly],
      (mkEntry jobCritEarly).2.priority.value ≤ x.2.priority.value ∧
      (x.2.priority.value = (mkEntry jobCritEarly).2.priority.value →
        (mkEntry jobCritEarly).2.scheduled_at ≤ x.2.scheduled_at) :=
  queue_priority_order
    [mkEntry jobLow, mkEntry jobCritLate, mkEntry jobCritEarly]
    (mkEntry jobCritEarly)
    (by
      intro x hx
      simp only [List.mem_cons, List.not_mem_nil, or_false] at hx
      rcases hx with rfl | rfl | rfl <;> rfl)
    (by norm_num [queueMin, selectMinE, entryLt, QueuedRequest.lt, mkEntry,
      jobLow, jobCritLate, jobCritEarly, RequestPriority.value])

/-- Claim C10: an empty trailing window reports a perfect success rate.
For every window size `w`, when no recorded request falls inside the
window (in particular for a fresh tracker), `get_success_rate` returns 1;
consequently the adaptive-pacing update, which reads the trailing
60-minute rate, takes its high-success branch: the delay never grows, and
strictly shrinks while above its floor of 1. -/
theorem idle_success_rate_one (requests : List (ℚ × Bool)) (now d : ℚ)
    (hd : 1 ≤ d) :
    (∀ w, (∀ r ∈ requests, r.1 < now - w * 60) →
        RateLimiterPy.getSuccessRate requests now w = 1) ∧
    ((∀ r ∈ requests, r.1 < now - 60 * 60) →
        updateAdaptiveDelay d (RateLimiterPy.getSuccessRate requests now 60) ≤ d ∧
        (1 < d →
          updateAdaptiveDelay d (RateLimiterPy.getSuccessRate requests now 60) < d)) := by
  have hrate : ∀ w, (∀ r ∈ requests, r.1 < now - w * 60) →
      RateLimiterPy.getSuccessRate requests now w = 1 := by
    intro w hw
    unfold RateLimiterPy.getSuccessRate
    dsimp only
    have hnil : requests.filter (fun r => decide (now - w * 60 ≤ r.1)) = [] := by
      rw [List.filter_eq_nil_iff]
      intro a ha
      simp only [decide_eq_true_eq, not_le]
      exact hw a ha
    rw [hnil]
    simp
  refine ⟨hrate, fun h60 => ?_⟩
  rw [hrate 60 h60]
  unfold updateAdaptiveDelay
  rw [if_neg (by norm_num), if_pos (by norm_num)]
  constructor
  · exact max_le hd (by linarith)
  · intro hd2
    exact max_lt hd2 (by linarith)

/-- Witness for C10: one request recorded at time 5 with the window
evaluated at time 10000 (the request is far outside the trailing hour);
the adaptive delay 2 strictly decreases. -/
theorem idle_success_rate_one_witness :
    RateLimiterPy.getSuccessRate [((5:ℚ), true)] 10000 60 = 1 ∧
    updateAdaptiveDelay 2 (RateLimiterPy.getSuccessRate [((5:ℚ), true)] 10000 60) < 2 := by
  have hall : ∀ r ∈ [((5:ℚ), true)], r.1 < 10000 - 60 * 60 := by
    intro r hr
    simp only [List.mem_singleton] at hr
    subst hr
    norm_num
  have happ := idle_success_rate_one [((5:ℚ), true)] 10000 2 (by norm_num)
  exact ⟨happ.1 60 hall, (happ.2 hall).2 (by norm_num)⟩

end RequestQueueTheorems
